import Mathlib

/-!
Verification of the MRMS GRIB2 decode-and-render core of the radar
application.  The JavaScript sources (the GRIB2 parser module and the
server module with the color scale and the per-product cache) are
shallowly embedded: byte buffers are lists of naturals, JavaScript
numbers are modelled as exact rationals extended with NaN and the two
infinities, the 32-bit integer semantics of the JavaScript shift and or
operators are modelled by explicit reductions modulo 2^32, and buffer
accessor methods that throw on out-of-range offsets return `Except`.
Host floating-point rounding is idealised as exact rational arithmetic;
the storage-precision question is treated separately.
-/

set_option maxRecDepth 100000

deriving instance DecidableEq for Except

namespace RadarApp

/-- A JavaScript number as it flows through the decoder: NaN, an
infinity (`inf true` is negative infinity), or a finite value modelled
as an exact rational. -/
inductive JVal where
  | nan : JVal
  | inf : Bool → JVal
  | num : ℚ → JVal
deriving DecidableEq, Repr

/-- JavaScript addition on numbers (NaN propagates; opposite infinities
give NaN). -/
def JVal.add : JVal → JVal → JVal
  | nan, _ => nan
  | _, nan => nan
  | inf s, inf t => if s = t then inf s else nan
  | inf s, num _ => inf s
  | num _, inf t => inf t
  | num a, num b => num (a + b)

/-- JavaScript multiplication on numbers (NaN propagates; infinity
times zero is NaN; signs combine). -/
def JVal.mul : JVal → JVal → JVal
  | nan, _ => nan
  | _, nan => nan
  | inf s, inf t => inf (s != t)
  | inf s, num b => if b = 0 then nan else inf (s != decide (b < 0))
  | num a, inf t => if a = 0 then nan else inf (decide (a < 0) != t)
  | num a, num b => num (a * b)

/-- The JavaScript strict-less-than comparison: any comparison with NaN
is false. -/
def JVal.lt : JVal → JVal → Bool
  | nan, _ => false
  | _, nan => false
  | inf s, inf t => s && !t
  | inf s, num _ => s
  | num _, inf t => !t
  | num a, num b => decide (a < b)

/-- `getColorForReflectivity` from the server module: the fixed
dBZ-to-RGBA calibration table, written exactly as the source's chain of
strict-less-than tests with the final purple catch-all. -/
def getColorForReflectivity (dbz : JVal) : Nat × Nat × Nat × Nat :=
  if dbz.lt (JVal.num 5) then (0, 0, 0, 0)
  else if dbz.lt (JVal.num 10) then (4, 233, 231, 180)
  else if dbz.lt (JVal.num 15) then (1, 159, 244, 200)
  else if dbz.lt (JVal.num 20) then (3, 0, 244, 220)
  else if dbz.lt (JVal.num 25) then (2, 253, 2, 230)
  else if dbz.lt (JVal.num 30) then (1, 197, 1, 240)
  else if dbz.lt (JVal.num 35) then (0, 142, 0, 250)
  else if dbz.lt (JVal.num 40) then (253, 248, 2, 255)
  else if dbz.lt (JVal.num 45) then (229, 188, 0, 255)
  else if dbz.lt (JVal.num 50) then (253, 139, 0, 255)
  else if dbz.lt (JVal.num 55) then (212, 0, 0, 255)
  else if dbz.lt (JVal.num 60) then (188, 0, 0, 255)
  else if dbz.lt (JVal.num 65) then (248, 0, 253, 255)
  else (153, 85, 201, 255)

/-- The ECMAScript ToUint32 conversion on an integral value. -/
def jsToUint32 (v : Int) : Nat := (v % (2 ^ 32 : Int)).toNat

/-- The ECMAScript ToInt32 conversion on an integral value: the residue
of `v` modulo `2 ^ 32`, represented in `[-2 ^ 31, 2 ^ 31)`. -/
def jsToInt32 (v : Int) : Int := (v + 2 ^ 31) % 2 ^ 32 - 2 ^ 31

/-- The JavaScript left-shift operator on integral values: ToInt32 the
left operand, shift by the low five bits of the right operand, and
reinterpret the 32-bit result as signed. -/
def jsShl (a b : Int) : Int :=
  jsToInt32 (jsToInt32 a * 2 ^ (jsToUint32 b % 32))

/-- The JavaScript bitwise-or operator on integral values: or the two
32-bit patterns and reinterpret as signed. -/
def jsOr (a b : Int) : Int :=
  jsToInt32 ((Nat.lor (jsToUint32 a) (jsToUint32 b) : Nat) : Int)

/-- `readBits` from the parser module.  The accumulator statement
`value = (value << 1) | bit` uses the JavaScript 32-bit signed shift and
or operators; indexing the buffer past its end yields `undefined`, which
the shift coerces to 0, hence `List.getD _ _ 0`. -/
def readBits (buffer : List Nat) (bitOffset numBits : Nat) : Int :=
  (List.range numBits).foldl
    (fun value i =>
      let byteIndex := (bitOffset + i) / 8
      let bitIndex := 7 - (bitOffset + i) % 8
      let bit := buffer.getD byteIndex 0 / 2 ^ bitIndex % 2
      jsOr (jsShl value 1) (bit : Int))
    0

/-- The bit of `buffer` at absolute bit position `pos`, most significant
bit of each byte first (bytes past the end read as 0). -/
def bitAt (buffer : List Nat) (pos : Nat) : Nat :=
  buffer.getD (pos / 8) 0 / 2 ^ (7 - pos % 8) % 2

/-- The mathematical value of the `n` bits of `buffer` starting at bit
position `bitOffset`, as a big-endian unsigned integer. -/
def bitsBE (buffer : List Nat) (bitOffset : Nat) : Nat → Nat
  | 0 => 0
  | n + 1 => 2 * bitsBE buffer bitOffset n + bitAt buffer (bitOffset + n)

/-- The bitmap test of the decoder loop: cell `i` is missing when a
bitmap is present and bit `7 - i % 8` of bitmap byte `i / 8` is 0
(the source reads `(bitMap[byteIndex] >> bitIndex) & 1` and treats 0 as
missing; an out-of-range bitmap byte reads as 0, hence missing). -/
def cellMissing (bitMap : Option (List Nat)) (i : Nat) : Bool :=
  match bitMap with
  | some bm => bm.getD (i / 8) 0 / 2 ^ (7 - i % 8) % 2 == 0
  | none => false

/-- The per-cell loop of `decodeData` (parser module): `rem` cells remain,
the next cell has index `i`, and the bit cursor stands at `bitPos`.
A missing cell receives NaN and leaves the cursor unchanged; otherwise
`numBits` bits are read at the cursor, the cursor advances, and the cell
receives `(referenceValue + packedValue * binaryScale) * decimalScale`. -/
def decodeCells (dataBuffer : List Nat) (bitMap : Option (List Nat))
    (numberOfBits : Nat) (referenceValue binaryScale decimalScale : JVal) :
    Nat → Nat → Nat → List JVal
  | 0, _, _ => []
  | rem + 1, i, bitPos =>
    if cellMissing bitMap i then
      JVal.nan ::
        decodeCells dataBuffer bitMap numberOfBits referenceValue binaryScale
          decimalScale rem (i + 1) bitPos
    else
      let packedValue := readBits dataBuffer bitPos numberOfBits
      JVal.mul
          (JVal.add referenceValue
            (JVal.mul (JVal.num (packedValue : ℚ)) binaryScale)) decimalScale ::
        decodeCells dataBuffer bitMap numberOfBits referenceValue binaryScale
          decimalScale rem (i + 1) (bitPos + numberOfBits)

/-- `decodeData` from the parser module.  `binaryScale = 2 ^ E` and
`decimalScale = 10 ^ (-D)` are computed once; when `numberOfBits = 0`
the array is filled with `referenceValue` and returned before the bitmap
is ever consulted. -/
def decodeData (dataBuffer : List Nat) (bitMap : Option (List Nat))
    (numberOfDataPoints numberOfBits : Nat) (referenceValue : JVal)
    (binaryScaleFactor decimalScaleFactor : Int) : List JVal :=
  let binaryScale : JVal := JVal.num ((2 : ℚ) ^ binaryScaleFactor)
  let decimalScale : JVal := JVal.num ((10 : ℚ) ^ (-decimalScaleFactor))
  if numberOfBits = 0 then List.replicate numberOfDataPoints referenceValue
  else
    decodeCells dataBuffer bitMap numberOfBits referenceValue binaryScale
      decimalScale numberOfDataPoints 0 0

/-- The number of non-missing cells among the `len` cell indices
starting at `i` (the amount by which the bit cursor advances, in units
of `numberOfBits`). -/
def validCount (bitMap : Option (List Nat)) (i : Nat) : Nat → Nat
  | 0 => 0
  | len + 1 => (if cellMissing bitMap i then 0 else 1) + validCount bitMap (i + 1) len

/-! ## The GRIB2 message parser

`parseMRMSGrib2` walks the buffer with a running offset, reading fixed
fields of each section.  The Node.js buffer accessors
(`readUInt8`, `readUInt16BE`, `readUInt32BE`, `readInt16BE`,
`readInt32BE`, `readFloatBE`) throw a range error if the requested
bytes extend past the end of the buffer; this is modelled by `Except`
with the `outOfRange` error.  `Buffer.slice` and
`Buffer.toString` clamp instead of throwing. -/

/-- The error outcomes of `parseMRMSGrib2`: the two explicit `throw`
statements of the source (bad magic string, unsupported edition) and
the range error of the Node.js buffer accessors. -/
inductive ParseErr where
  | notGrib : ParseErr
  | unsupportedEdition : Nat → ParseErr
  | outOfRange : ParseErr
deriving DecidableEq, Repr

/-- Node.js `buffer.readUInt8(o)`. -/
def readUInt8 (b : List Nat) (o : Nat) : Except ParseErr Nat :=
  if o + 1 ≤ b.length then .ok (b.getD o 0) else .error .outOfRange

/-- Node.js `buffer.readUInt16BE(o)`. -/
def readUInt16BE (b : List Nat) (o : Nat) : Except ParseErr Nat :=
  if o + 2 ≤ b.length then .ok (b.getD o 0 * 2 ^ 8 + b.getD (o + 1) 0)
  else .error .outOfRange

/-- Node.js `buffer.readUInt32BE(o)`. -/
def readUInt32BE (b : List Nat) (o : Nat) : Except ParseErr Nat :=
  if o + 4 ≤ b.length then
    .ok (b.getD o 0 * 2 ^ 24 + b.getD (o + 1) 0 * 2 ^ 16 +
      b.getD (o + 2) 0 * 2 ^ 8 + b.getD (o + 3) 0)
  else .error .outOfRange

/-- Reinterpret a `w`-bit unsigned value as two's-complement signed. -/
def toSigned (w n : Nat) : Int :=
  if n < 2 ^ (w - 1) then (n : Int) else (n : Int) - 2 ^ w

/-- Node.js `buffer.readInt16BE(o)`. -/
def readInt16BE (b : List Nat) (o : Nat) : Except ParseErr Int :=
  (readUInt16BE b o).map (toSigned 16)

/-- Node.js `buffer.readInt32BE(o)`. -/
def readInt32BE (b : List Nat) (o : Nat) : Except ParseErr Int :=
  (readUInt32BE b o).map (toSigned 32)

/-- Decode an IEEE-754 binary32 bit pattern to a number (exponent 255
patterns are the non-finite values). -/
def f32ToVal (bits : Nat) : JVal :=
  let s : Nat := bits / 2 ^ 31 % 2
  let e : Nat := bits / 2 ^ 23 % 2 ^ 8
  let m : Nat := bits % 2 ^ 23
  if e = 255 then (if m = 0 then JVal.inf (s = 1) else JVal.nan)
  else
    let mag : ℚ :=
      if e = 0 then (m : ℚ) * (2 : ℚ) ^ (-149 : ℤ)
      else ((2 ^ 23 + m : ℕ) : ℚ) * (2 : ℚ) ^ ((e : ℤ) - 150)
    JVal.num (if s = 1 then -mag else mag)

/-- Node.js `buffer.readFloatBE(o)`. -/
def readFloatBE (b : List Nat) (o : Nat) : Except ParseErr JVal :=
  (readUInt32BE b o).map f32ToVal

/-- Node.js `buffer.slice(start, stop)` (clamps, never throws). -/
def jsSlice (b : List Nat) (start stop : Nat) : List Nat :=
  (b.take stop).drop start

/-- The record returned by `parseMRMSGrib2` (the `timestamp` `Date` of
the source is kept as its six raw broken-down fields; the external
`Date` constructor is not part of the core). -/
structure GribMessage where
  discipline : Nat
  year : Nat
  month : Nat
  day : Nat
  hour : Nat
  minute : Nat
  second : Nat
  nx : Nat
  ny : Nat
  la1 : ℚ
  lo1 : ℚ
  la2 : ℚ
  lo2 : ℚ
  dx : ℚ
  dy : ℚ
  values : List JVal
  numberOfDataPoints : Nat
deriving DecidableEq, Repr

/-- `parseMRMSGrib2` from the parser module, with every buffer read at
the absolute offset the source computes.  The section-2 number is the
only section number consulted (section 2 is skipped unless its number
byte equals 2); the grid-definition and data-representation template
numbers are commented out in the source and therefore never read; no
declared section length is validated. -/
def parseMRMSGrib2 (buffer : List Nat) : Except ParseErr GribMessage := do
  if buffer.take 4 ≠ [71, 82, 73, 66] then throw .notGrib
  let discipline ← readUInt8 buffer 6
  let edition ← readUInt8 buffer 7
  if edition ≠ 2 then throw (.unsupportedEdition edition)
  let o0 := 16
  let section1Length ← readUInt32BE buffer o0
  let year ← readUInt16BE buffer (o0 + 12)
  let month ← readUInt8 buffer (o0 + 14)
  let day ← readUInt8 buffer (o0 + 15)
  let hour ← readUInt8 buffer (o0 + 16)
  let minute ← readUInt8 buffer (o0 + 17)
  let second ← readUInt8 buffer (o0 + 18)
  let o1 := o0 + section1Length
  let section2Length ← readUInt32BE buffer o1
  let section2Number ← readUInt8 buffer (o1 + 4)
  let o2 := if section2Number = 2 then o1 + section2Length else o1
  let section3Length ← readUInt32BE buffer o2
  let nx ← readUInt32BE buffer (o2 + 30)
  let ny ← readUInt32BE buffer (o2 + 34)
  let la1 ← readInt32BE buffer (o2 + 46)
  let lo1 ← readInt32BE buffer (o2 + 50)
  let la2 ← readInt32BE buffer (o2 + 55)
  let lo2 ← readInt32BE buffer (o2 + 59)
  let dx ← readUInt32BE buffer (o2 + 63)
  let dy ← readUInt32BE buffer (o2 + 67)
  let o3 := o2 + section3Length
  let section4Length ← readUInt32BE buffer o3
  let o4 := o3 + section4Length
  let section5Length ← readUInt32BE buffer o4
  let numberOfDataPoints ← readUInt32BE buffer (o4 + 5)
  let referenceValue ← readFloatBE buffer (o4 + 11)
  let binaryScaleFactor ← readInt16BE buffer (o4 + 15)
  let decimalScaleFactor ← readInt16BE buffer (o4 + 17)
  let numberOfBits ← readUInt8 buffer (o4 + 19)
  let o5 := o4 + section5Length
  let section6Length ← readUInt32BE buffer o5
  let bitMapIndicator ← readUInt8 buffer (o5 + 5)
  let bitMap :=
    if bitMapIndicator = 0 then some (jsSlice buffer (o5 + 6) (o5 + section6Length))
    else none
  let o6 := o5 + section6Length
  let section7Length ← readUInt32BE buffer o6
  let dataBuffer := jsSlice buffer (o6 + 5) (o6 + section7Length)
  let values := decodeData dataBuffer bitMap numberOfDataPoints numberOfBits
    referenceValue binaryScaleFactor decimalScaleFactor
  return { discipline := discipline, year := year, month := month, day := day,
           hour := hour, minute := minute, second := second, nx := nx, ny := ny,
           la1 := (la1 : ℚ) / 1000000, lo1 := (lo1 : ℚ) / 1000000,
           la2 := (la2 : ℚ) / 1000000, lo2 := (lo2 : ℚ) / 1000000,
           dx := (dx : ℚ) / 1000000, dy := (dy : ℚ) / 1000000,
           values := values, numberOfDataPoints := numberOfDataPoints }

/-- Whether an `Except` value is a success. -/
def exceptOk {ε α : Type} : Except ε α → Bool
  | .ok _ => true
  | .error _ => false

/-! ## Concrete test messages

`mkGribBuf` assembles a well-formed minimal message around the layout
the parser expects: a 21-byte section 1, no section 2, a 71-byte
section 3 describing a 2-by-1 grid from (50, 230) to (49, 231) with
increments of 1 degree, a 9-byte section 4, a 21-byte section 5 with
`numberOfDataPoints = 2`, reference value 0, both scale factors 0 and
`bitWidth = 8`, a 6-byte section 6 with no bitmap, and a section 7
whose declared length and payload are parameters, as are the two
template-number fields (which the parser never reads). -/

/-- Big-endian 16-bit byte encoding. -/
def u16 (n : Nat) : List Nat := [n / 2 ^ 8 % 256, n % 256]

/-- Big-endian 32-bit byte encoding. -/
def u32 (n : Nat) : List Nat :=
  [n / 2 ^ 24 % 256, n / 2 ^ 16 % 256, n / 2 ^ 8 % 256, n % 256]

/-- A minimal concrete GRIB2 message (see the section comment). -/
def mkGribBuf (gridTemplate dataRepTemplate section7Length : Nat)
    (dataBytes : List Nat) : List Nat :=
  [71, 82, 73, 66, 0, 0, 209, 2] ++ List.replicate 8 0 ++
  u32 21 ++ [1] ++ List.replicate 7 0 ++ u16 2024 ++ [10, 1, 0, 0, 0, 0, 0] ++
  u32 71 ++ [3] ++ List.replicate 7 0 ++ u16 gridTemplate ++
    List.replicate 16 0 ++ u32 2 ++ u32 1 ++ List.replicate 8 0 ++
    u32 50000000 ++ u32 230000000 ++ [0] ++ u32 49000000 ++ u32 231000000 ++
    u32 1000000 ++ u32 1000000 ++
  u32 9 ++ [4] ++ List.replicate 4 0 ++
  u32 21 ++ [5] ++ u32 2 ++ u16 dataRepTemplate ++ u32 0 ++ u16 0 ++ u16 0 ++
    [8, 0] ++
  u32 6 ++ [6, 255] ++
  u32 section7Length ++ [7] ++ dataBytes

/-- A message with both template numbers set to 99 (not the supported
values) and an honest section-7 length. -/
def gribBufA : List Nat := mkGribBuf 99 99 7 [171, 205]

/-- A message whose declared section-7 length (1000) far exceeds the
remaining buffer (the buffer ends 6 bytes after the section-7 start). -/
def gribBufB : List Nat := mkGribBuf 0 0 1000 [171]

example : gribBufA.length = 151 := by decide
example : gribBufB.length = 150 := by decide
example : exceptOk (parseMRMSGrib2 gribBufA) = true := by decide
example : exceptOk (parseMRMSGrib2 gribBufB) = true := by decide

/-! ## The product cache

The server keeps `dataCache`, a map from product key to
`{ data, time }`, and `CACHE_DURATION = 2 * 60 * 1000` milliseconds.
The `/api/radar/latest` handler reads the entry for the requested key,
serves it without fetching when `now - cached.time < CACHE_DURATION`,
and otherwise fetches, stores `{ data, time: now }` and serves the
fresh data (on a fetch failure the handler responds with status 500
and leaves the cache untouched).  Distinct product keys are
independent (the handler only ever reads and writes the entry of the
requested key), so the model tracks the entry of one key.  The fetched
and decoded payload is opaque here: the network fetch and gunzip are
external collaborators. -/

/-- The fetched-and-decoded payload of one refresh, abstracted. -/
structure RadarData where
  payload : Nat
deriving DecidableEq, Repr

/-- One `dataCache` entry: `{ data, time }`. -/
structure CacheEntry where
  data : RadarData
  time : Int
deriving DecidableEq, Repr

/-- `CACHE_DURATION` from the server module (milliseconds). -/
def CACHE_DURATION : Int := 2 * 60 * 1000

/-- Outcome of the external fetch-and-decode pipeline. -/
inductive FetchResult where
  | ok : RadarData → FetchResult
  | err : FetchResult
deriving DecidableEq, Repr

/-- What the handler sends back. -/
inductive Response where
  | json : RadarData → Response
  | error500 : Response
deriving DecidableEq, Repr

/-- The freshness test of the handler:
`cached && (now - cached.time < CACHE_DURATION)`. -/
def freshCheck (cached : Option CacheEntry) (now : Int) : Bool :=
  match cached with
  | some c => decide (now - c.time < CACHE_DURATION)
  | none => false

/-- The `/api/radar/latest` handler for one product key: given the
cached entry for the key, the current time, and the outcome the
fetch pipeline would produce, return the new cache state, whether a
fetch was performed, and the response. -/
def radarLatest (cached : Option CacheEntry) (now : Int) (fetch : FetchResult) :
    Option CacheEntry × Bool × Response :=
  match cached with
  | some c =>
    if now - c.time < CACHE_DURATION then (some c, false, Response.json c.data)
    else
      match fetch with
      | .ok d => (some ⟨d, now⟩, true, Response.json d)
      | .err => (some c, true, Response.error500)
  | none =>
    match fetch with
    | .ok d => (some ⟨d, now⟩, true, Response.json d)
    | .err => (none, true, Response.error500)

/-- Run a sequence of requests (each with its arrival time and the
result a fetch would produce), counting performed fetches. -/
def runRequests : List (Int × FetchResult) → Option CacheEntry → Nat →
    Option CacheEntry × Nat
  | [], st, n => (st, n)
  | (t, f) :: rest, st, n =>
    let r := radarLatest st t f
    runRequests rest r.1 (n + (if r.2.1 then 1 else 0))

example :
    runRequests [(0, .ok ⟨0⟩), (119000, .ok ⟨1⟩)] none 0 =
      (some ⟨⟨0⟩, 0⟩, 1) := by decide
example :
    runRequests [(0, .ok ⟨0⟩), (119000, .ok ⟨1⟩), (121000, .ok ⟨2⟩)] none 0 =
      (some ⟨⟨2⟩, 121000⟩, 2) := by decide

example : readBits [171, 205] 0 8 = 171 := by decide
example : readBits [171, 205] 8 8 = 205 := by decide
example : readBits [171, 205] 4 8 = 188 := by decide
example : readBits [128, 0, 0, 0] 0 32 = -2147483648 := by decide
example : bitsBE [128, 0, 0, 0] 0 32 = 2147483648 := by decide
example : decodeData [171, 205] none 2 8 (JVal.num 0) 0 0 =
    [JVal.num 171, JVal.num 205] := by with_unfolding_all decide
example : decodeData [171] (some [128]) 2 8 (JVal.num 0) 0 0 =
    [JVal.num 171, JVal.nan] := by with_unfolding_all decide
example : decodeData [7] (some [0]) 1 0 (JVal.num 5) 0 0 = [JVal.num 5] := by
  with_unfolding_all decide
example : getColorForReflectivity JVal.nan = (153, 85, 201, 255) := by
  with_unfolding_all decide
example : getColorForReflectivity (JVal.num 3) = (0, 0, 0, 0) := by
  with_unfolding_all decide
example : (2 : ℚ) ^ (-(1 : ℤ)) = 1 / 2 := by with_unfolding_all decide

/-! ## Arithmetic of the 32-bit accumulator -/

theorem jsToInt32_congr {a b : Int} (h : a % 2 ^ 32 = b % 2 ^ 32) :
    jsToInt32 a = jsToInt32 b := by
  unfold jsToInt32; omega

theorem jsToInt32_emod (v : Int) : jsToInt32 v % 2 ^ 32 = v % 2 ^ 32 := by
  unfold jsToInt32; omega

theorem jsToInt32_idem (v : Int) : jsToInt32 (jsToInt32 v) = jsToInt32 v :=
  jsToInt32_congr (jsToInt32_emod v)

theorem jsToUint32_jsToInt32 (v : Int) :
    jsToUint32 (jsToInt32 v) = jsToUint32 v := by
  have h := jsToInt32_emod v
  unfold jsToUint32
  omega

theorem lor_two_mul_one (m : Nat) : Nat.lor (2 * m) 1 = 2 * m + 1 := by
  apply Nat.eq_of_testBit_eq
  intro i
  show ((2 * m) ||| 1).testBit i = (2 * m + 1).testBit i
  rw [Nat.testBit_lor]
  cases i with
  | zero =>
    rw [Nat.testBit_zero, Nat.testBit_zero, Nat.testBit_zero]
    simp
    omega
  | succ j =>
    rw [Nat.testBit_succ, Nat.testBit_succ, Nat.testBit_succ]
    have h1 : (2 * m + 1) / 2 = m := by omega
    have h2 : 2 * m / 2 = m := by omega
    have h3 : (1 : Nat) / 2 = 0 := by omega
    rw [h1, h2, h3]
    simp [Nat.zero_testBit]

theorem lor_two_mul (m b : Nat) (hb : b < 2) :
    Nat.lor (2 * m) b = 2 * m + b := by
  interval_cases b
  · show (2 * m) ||| 0 = 2 * m + 0
    simp
  · exact lor_two_mul_one m

/-- One iteration of the `readBits` accumulator: shifting in the next
bit computes `2 * N + bit`, reduced to a signed 32-bit value. -/
theorem jsStep (N bit : Nat) (hb : bit < 2) :
    jsOr (jsShl (jsToInt32 (N : Int)) 1) (bit : Int) =
      jsToInt32 ((2 * N + bit : Nat) : Int) := by
  have h1 : jsToUint32 1 % 32 = 1 := by unfold jsToUint32; decide
  have hsh : jsShl (jsToInt32 (N : Int)) 1 = jsToInt32 ((2 * N : Nat) : Int) := by
    unfold jsShl
    rw [jsToInt32_idem, h1]
    apply jsToInt32_congr
    have h2 := jsToInt32_emod (N : Int)
    have h4 := Int.ModEq.mul_right 2
      (a := jsToInt32 (N : Int)) (b := (N : Int)) (n := 2 ^ 32) h2
    have h3 : jsToInt32 (N : Int) * 2 ^ 1 % 2 ^ 32 = (N : Int) * 2 % 2 ^ 32 := by
      simpa [Int.ModEq, pow_succ] using h4
    rw [h3]
    push_cast
    ring_nf
  rw [hsh]
  unfold jsOr
  have hu2N : jsToUint32 ((2 * N : Nat) : Int) = 2 * (N % 2 ^ 31) := by
    unfold jsToUint32; omega
  have hubit : jsToUint32 ((bit : Nat) : Int) = bit := by
    unfold jsToUint32; omega
  rw [jsToUint32_jsToInt32, hu2N, hubit, lor_two_mul _ _ hb]
  apply jsToInt32_congr
  omega

theorem bitAt_lt_two (b : List Nat) (pos : Nat) : bitAt b pos < 2 := by
  unfold bitAt; omega

theorem jsToInt32_zero : jsToInt32 ((0 : Nat) : Int) = 0 := by
  unfold jsToInt32; decide

/-- `readBits` computes the big-endian bit field, reduced to a signed
32-bit value. -/
theorem readBits_eq_bitsBE (b : List Nat) (o n : Nat) :
    readBits b o n = jsToInt32 ((bitsBE b o n : Nat) : Int) := by
  induction n with
  | zero =>
    show (0 : Int) = jsToInt32 ((bitsBE b o 0 : Nat) : Int)
    rw [bitsBE, jsToInt32_zero]
  | succ k ih =>
    unfold readBits
    rw [List.range_succ, List.foldl_append]
    unfold readBits at ih
    rw [ih, List.foldl_cons, List.foldl_nil]
    show jsOr (jsShl (jsToInt32 ((bitsBE b o k : Nat) : Int)) 1)
        ((bitAt b (o + k) : Nat) : Int) =
      jsToInt32 ((bitsBE b o (k + 1) : Nat) : Int)
    rw [jsStep _ _ (bitAt_lt_two b (o + k))]
    rfl

theorem bitsBE_lt (b : List Nat) (o : Nat) : ∀ n, bitsBE b o n < 2 ^ n
  | 0 => by rw [bitsBE]; norm_num
  | n + 1 => by
    rw [bitsBE, pow_succ]
    have h1 := bitsBE_lt b o n
    have h2 := bitAt_lt_two b (o + n)
    omega

theorem jsToInt32_of_small (n : Nat) (h : n < 2 ^ 31) :
    jsToInt32 ((n : Nat) : Int) = (n : Int) := by
  unfold jsToInt32; omega

/-- For widths up to 31 the accumulator never wraps: `readBits` returns
exactly the unsigned big-endian field. -/
theorem readBits_of_le31 (b : List Nat) (o n : Nat) (h : n ≤ 31) :
    readBits b o n = ((bitsBE b o n : Nat) : Int) := by
  rw [readBits_eq_bitsBE]
  apply jsToInt32_of_small
  calc bitsBE b o n < 2 ^ n := bitsBE_lt b o n
    _ ≤ 2 ^ 31 := Nat.pow_le_pow_right (by norm_num) h

/-! ## Padding: bytes past the end of the payload read as zero -/

theorem getD_replicate_zero : ∀ (k j : Nat), (List.replicate k 0).getD j 0 = 0
  | 0, _ => rfl
  | _ + 1, 0 => rfl
  | k + 1, j + 1 => getD_replicate_zero k j

theorem getD_append_zeros :
    ∀ (l : List Nat) (k j : Nat), (l ++ List.replicate k 0).getD j 0 = l.getD j 0
  | [], k, j => by
    rw [List.nil_append]
    exact (getD_replicate_zero k j).trans rfl
  | _ :: _, _, 0 => rfl
  | _ :: l, k, j + 1 => getD_append_zeros l k j

theorem bitAt_append_zeros (l : List Nat) (k pos : Nat) :
    bitAt (l ++ List.replicate k 0) pos = bitAt l pos := by
  unfold bitAt
  rw [getD_append_zeros]

theorem bitsBE_append_zeros (l : List Nat) (k o : Nat) :
    ∀ n, bitsBE (l ++ List.replicate k 0) o n = bitsBE l o n
  | 0 => rfl
  | n + 1 => by
    rw [bitsBE, bitsBE, bitsBE_append_zeros l k o n, bitAt_append_zeros]

theorem readBits_append_zeros (l : List Nat) (k o n : Nat) :
    readBits (l ++ List.replicate k 0) o n = readBits l o n := by
  rw [readBits_eq_bitsBE, readBits_eq_bitsBE, bitsBE_append_zeros]

/-! ## The decoder-loop invariant -/

/-- The value the loop assigns to a non-missing cell whose read starts
at bit position `bitPos`. -/
def cellValue (dataBuffer : List Nat) (numberOfBits bitPos : Nat)
    (referenceValue binaryScale decimalScale : JVal) : JVal :=
  JVal.mul
    (JVal.add referenceValue
      (JVal.mul (JVal.num ((readBits dataBuffer bitPos numberOfBits : Int) : ℚ))
        binaryScale))
    decimalScale

/-- Element `j` of the loop's output, with the loop started at cell
index `i` and bit position `bitPos`: NaN when the bitmap marks cell
`i + j` missing, and otherwise the value read at the cursor advanced by
`numberOfBits` for each earlier non-missing cell. -/
theorem decodeCells_getD (dataBuffer : List Nat) (bitMap : Option (List Nat))
    (numberOfBits : Nat) (R bs ds : JVal) :
    ∀ rem i bitPos j, j < rem →
      (decodeCells dataBuffer bitMap numberOfBits R bs ds rem i bitPos).getD j
          JVal.nan =
        if cellMissing bitMap (i + j) then JVal.nan
        else
          cellValue dataBuffer numberOfBits
            (bitPos + numberOfBits * validCount bitMap i j) R bs ds
  | 0, i, bitPos, j, hj => absurd hj (Nat.not_lt_zero j)
  | rem + 1, i, bitPos, j, hj => by
    by_cases hm : cellMissing bitMap i
    · rw [decodeCells, if_pos hm]
      cases j with
      | zero =>
        rw [List.getD_cons_zero, Nat.add_zero, if_pos hm]
      | succ j' =>
        rw [List.getD_cons_succ,
          decodeCells_getD dataBuffer bitMap numberOfBits R bs ds rem (i + 1)
            bitPos j' (by omega)]
        have ha : i + 1 + j' = i + (j' + 1) := by omega
        have hv : validCount bitMap i (j' + 1) = validCount bitMap (i + 1) j' := by
          rw [validCount, if_pos hm, Nat.zero_add]
        rw [ha, hv]
    · rw [decodeCells, if_neg hm]
      cases j with
      | zero =>
        rw [List.getD_cons_zero, Nat.add_zero, if_neg hm]
        show cellValue dataBuffer numberOfBits bitPos R bs ds = _
        have hv : validCount bitMap i 0 = 0 := rfl
        rw [hv, Nat.mul_zero, Nat.add_zero]
      | succ j' =>
        rw [List.getD_cons_succ,
          decodeCells_getD dataBuffer bitMap numberOfBits R bs ds rem (i + 1)
            (bitPos + numberOfBits) j' (by omega)]
        have ha : i + 1 + j' = i + (j' + 1) := by omega
        have hv : validCount bitMap i (j' + 1) = 1 + validCount bitMap (i + 1) j' := by
          rw [validCount, if_neg hm]
        have hp : bitPos + numberOfBits + numberOfBits * validCount bitMap (i + 1) j' =
            bitPos + numberOfBits * validCount bitMap i (j' + 1) := by
          rw [hv, Nat.mul_add, Nat.mul_one]
          omega
        rw [ha, hp]

theorem decodeCells_length (dataBuffer : List Nat) (bitMap : Option (List Nat))
    (numberOfBits : Nat) (R bs ds : JVal) :
    ∀ rem i bitPos,
      (decodeCells dataBuffer bitMap numberOfBits R bs ds rem i bitPos).length = rem
  | 0, _, _ => rfl
  | rem + 1, i, bitPos => by
    rw [decodeCells]
    by_cases hm : cellMissing bitMap i
    · rw [if_pos hm, List.length_cons,
        decodeCells_length dataBuffer bitMap numberOfBits R bs ds rem (i + 1) bitPos]
    · rw [if_neg hm, List.length_cons,
        decodeCells_length dataBuffer bitMap numberOfBits R bs ds rem (i + 1)
          (bitPos + numberOfBits)]

/-- `decodeData` for a positive bit width, cell by cell. -/
theorem decodeData_getD (dataBuffer : List Nat) (bitMap : Option (List Nat))
    (numberOfDataPoints numberOfBits : Nat) (referenceValue : JVal)
    (E D : Int) (i : Nat) (h0 : numberOfBits ≠ 0) (hi : i < numberOfDataPoints) :
    (decodeData dataBuffer bitMap numberOfDataPoints numberOfBits referenceValue
        E D).getD i JVal.nan =
      if cellMissing bitMap i then JVal.nan
      else
        cellValue dataBuffer numberOfBits (numberOfBits * validCount bitMap 0 i)
          referenceValue (JVal.num ((2 : ℚ) ^ E)) (JVal.num ((10 : ℚ) ^ (-D))) := by
  unfold decodeData
  rw [if_neg h0,
    decodeCells_getD dataBuffer bitMap numberOfBits referenceValue
      (JVal.num ((2 : ℚ) ^ E)) (JVal.num ((10 : ℚ) ^ (-D))) numberOfDataPoints 0 0 i hi]
  rw [Nat.zero_add, Nat.zero_add]

theorem decodeCells_append_zeros (l : List Nat) (k : Nat)
    (bitMap : Option (List Nat)) (numberOfBits : Nat) (R bs ds : JVal) :
    ∀ rem i bitPos,
      decodeCells (l ++ List.replicate k 0) bitMap numberOfBits R bs ds rem i
          bitPos =
        decodeCells l bitMap numberOfBits R bs ds rem i bitPos
  | 0, _, _ => rfl
  | rem + 1, i, bitPos => by
    rw [decodeCells, decodeCells]
    by_cases hm : cellMissing bitMap i
    · rw [if_pos hm, if_pos hm,
        decodeCells_append_zeros l k bitMap numberOfBits R bs ds rem (i + 1)
          bitPos]
    · rw [if_neg hm, if_neg hm]
      rw [readBits_append_zeros,
        decodeCells_append_zeros l k bitMap numberOfBits R bs ds rem (i + 1)
          (bitPos + numberOfBits)]

theorem decodeData_append_zeros (dataBuffer : List Nat) (k : Nat)
    (bitMap : Option (List Nat)) (numberOfDataPoints numberOfBits : Nat)
    (referenceValue : JVal) (E D : Int) :
    decodeData (dataBuffer ++ List.replicate k 0) bitMap numberOfDataPoints
        numberOfBits referenceValue E D =
      decodeData dataBuffer bitMap numberOfDataPoints numberOfBits
        referenceValue E D := by
  unfold decodeData
  by_cases h : numberOfBits = 0
  · rw [if_pos h, if_pos h]
  · rw [if_neg h, if_neg h, decodeCells_append_zeros]

theorem decodeData_length (dataBuffer : List Nat) (bitMap : Option (List Nat))
    (numberOfDataPoints numberOfBits : Nat) (referenceValue : JVal)
    (E D : Int) :
    (decodeData dataBuffer bitMap numberOfDataPoints numberOfBits
        referenceValue E D).length = numberOfDataPoints := by
  unfold decodeData
  by_cases h : numberOfBits = 0
  · rw [if_pos h, List.length_replicate]
  · rw [if_neg h, decodeCells_length]

/-- The only outcomes `parseMRMSGrib2` has: success, the two explicit
throws, or a buffer accessor's range error.  In particular no
unsupported-template and no invalid-section-length failure exists. -/
theorem parse_outcomes (buf : List Nat) :
    exceptOk (parseMRMSGrib2 buf) = true ∨
      parseMRMSGrib2 buf = .error .notGrib ∨
      (∃ e, parseMRMSGrib2 buf = .error (.unsupportedEdition e)) ∨
      parseMRMSGrib2 buf = .error .outOfRange := by
  cases h : parseMRMSGrib2 buf with
  | ok r => exact Or.inl rfl
  | error e =>
    cases e with
    | notGrib => exact Or.inr (Or.inl rfl)
    | unsupportedEdition n => exact Or.inr (Or.inr (Or.inl ⟨n, rfl⟩))
    | outOfRange => exact Or.inr (Or.inr (Or.inr rfl))

theorem readUInt32BE_short (b : List Nat) (o : Nat) (h : b.length < o + 4) :
    readUInt32BE b o = .error .outOfRange := by
  unfold readUInt32BE
  rw [if_neg (by omega)]

/-! ## The claims -/

/-- Claim C1: the claim states that the color mapper sends the
not-a-number sentinel to fully transparent black `(0,0,0,0)`.  The code
does the opposite: every strict-less-than comparison with NaN is false,
so NaN falls through the whole table into the final catch-all and is
rendered as opaque purple `(153,85,201,255)` - the color of the most
extreme reflectivity band, not transparent.  This theorem evaluates the
color mapper at the sentinel. -/
theorem colorOf_nan_purple :
    getColorForReflectivity JVal.nan = (153, 85, 201, 255) ∧
      (153, 85, 201, 255) ≠ ((0, 0, 0, 0) : Nat × Nat × Nat × Nat) := by
  constructor
  · with_unfolding_all decide
  · decide

/-- Claim C2, counterexample: at `bitWidth = 32` with the most
significant bit set, the accumulator of `readBits` wraps to a negative
signed 32-bit value, so the decoded cell is
`(R + (X - 2^32) * 2^E) * 10^(-D)` rather than the claimed
`(R + X * 2^E) * 10^(-D)` built from the unsigned big-endian field `X`;
at `R = 0`, `E = 0`, `D = 0` the two differ by `2^32`, far beyond the
claimed `1e-4` tolerance. -/
theorem decode_formula_cex :
    (decodeData [128, 0, 0, 0] none 1 32 (JVal.num 0) 0 0).getD 0 JVal.nan =
        JVal.num (-2147483648) ∧
      bitsBE [128, 0, 0, 0] 0 32 = 2147483648 ∧
      (1 / 10000 : ℚ) < |(-2147483648 : ℚ) -
        (0 + (2147483648 : ℚ) * (2 : ℚ) ^ (0 : ℤ)) * (10 : ℚ) ^ (-(0 : ℤ))| := by
  refine ⟨?_, by decide, ?_⟩
  · have h1 : readBits [128, 0, 0, 0] 0 32 = -2147483648 := by decide
    rw [decodeData_getD [128, 0, 0, 0] none 1 32 (JVal.num 0) 0 0 0
        (by decide) (by decide),
      if_neg (by decide)]
    unfold cellValue
    rw [show (32 : Nat) * validCount none 0 0 = 0 from rfl, h1]
    simp only [JVal.add, JVal.mul]
    norm_num
  · rw [abs_sub_comm]
    norm_num

/-- Claim C2 (amended): for every non-missing cell decoded with
`0 < bitWidth ≤ 31`, the decoded value equals exactly
`(R + X * 2^E) * 10^(-D)` in the real-valued model, where `X` is the
`bitWidth`-bit big-endian unsigned integer at the cell's bit-cursor
position (the cursor having advanced `bitWidth` bits for each earlier
non-missing cell); at `bitWidth = 32` the factor is instead the signed
reinterpretation of `X` (see the counterexample). -/
theorem decode_formula (dataBuffer : List Nat) (bitMap : Option (List Nat))
    (numberOfDataPoints numberOfBits : Nat) (r : ℚ) (E D : Int) (i : Nat)
    (h0 : 0 < numberOfBits) (h31 : numberOfBits ≤ 31)
    (hi : i < numberOfDataPoints) (hm : cellMissing bitMap i = false) :
    (decodeData dataBuffer bitMap numberOfDataPoints numberOfBits (JVal.num r)
        E D).getD i JVal.nan =
      JVal.num ((r + (bitsBE dataBuffer (numberOfBits * validCount bitMap 0 i)
          numberOfBits : ℚ) * (2 : ℚ) ^ E) * (10 : ℚ) ^ (-D)) := by
  rw [decodeData_getD dataBuffer bitMap numberOfDataPoints numberOfBits
      (JVal.num r) E D i (by omega) hi,
    if_neg (by rw [hm]; exact Bool.false_ne_true)]
  unfold cellValue
  rw [readBits_of_le31 dataBuffer _ numberOfBits h31]
  simp [JVal.add, JVal.mul]

/-- Claim C2, witness: the second of two 8-bit cells of the payload
`[171, 205]` decodes to the formula value with `X` read at bit
position 8. -/
theorem decode_formula_witness :
    (decodeData [171, 205] none 2 8 (JVal.num 0) 0 0).getD 1 JVal.nan =
      JVal.num ((0 + (bitsBE [171, 205] (8 * validCount none 0 1) 8 : ℚ) *
        (2 : ℚ) ^ (0 : ℤ)) * (10 : ℚ) ^ (-(0 : ℤ))) :=
  decode_formula [171, 205] none 2 8 0 0 0 1 (by decide) (by decide) (by decide)
    (by decide)

/-- Claim C3, counterexample: the claim's bitmap semantics does not
hold at `bitWidth = 0` - the decoder returns early and never consults
the bitmap, so a cell whose bitmap bit is 0 receives `referenceValue`
(here 3) instead of the claimed not-a-number sentinel. -/
theorem bitmap_semantics_cex :
    decodeData [255] (some [0]) 1 0 (JVal.num 3) 0 0 = [JVal.num 3] ∧
      cellMissing (some [0]) 0 = true ∧ JVal.num 3 ≠ JVal.nan := by
  refine ⟨by with_unfolding_all decide, by decide, by decide⟩

/-- Claim C3 (amended): provided `bitWidth > 0`, the decoder tests, for
each cell `i`, bit `7 - i % 8` of bitmap byte `i / 8` (`cellMissing`);
a 0 bit yields the NaN sentinel - independent of the packed bits - and
does not advance the cursor, while a 1 bit (or no bitmap) reads
`bitWidth` bits at the cursor position `bitWidth * validCount`, the
cursor having advanced only for earlier non-missing cells. -/
theorem bitmap_semantics (dataBuffer : List Nat) (bitMap : Option (List Nat))
    (numberOfDataPoints numberOfBits : Nat) (R : JVal) (E D : Int) (i : Nat)
    (h0 : 0 < numberOfBits) (hi : i < numberOfDataPoints) :
    (decodeData dataBuffer bitMap numberOfDataPoints numberOfBits R E D).getD i
        JVal.nan =
      if cellMissing bitMap i then JVal.nan
      else
        cellValue dataBuffer numberOfBits
          (numberOfBits * validCount bitMap 0 i) R (JVal.num ((2 : ℚ) ^ E))
          (JVal.num ((10 : ℚ) ^ (-D))) :=
  decodeData_getD dataBuffer bitMap numberOfDataPoints numberOfBits R E D i
    (by omega) hi

/-- Claim C3, witness: with bitmap byte 128 the first cell is valid and
the second is missing. -/
theorem bitmap_semantics_witness :
    (decodeData [171] (some [128]) 2 8 (JVal.num 0) 0 0).getD 1 JVal.nan =
      if cellMissing (some [128]) 1 then JVal.nan
      else
        cellValue [171] 8 (8 * validCount (some [128]) 0 1) (JVal.num 0)
          (JVal.num ((2 : ℚ) ^ (0 : ℤ))) (JVal.num ((10 : ℚ) ^ (-(0 : ℤ)))) :=
  bitmap_semantics [171] (some [128]) 2 8 (JVal.num 0) 0 0 1 (by decide)
    (by decide)

/-- Claim C4, counterexample: a 16-bit cell whose payload is truncated
to the single byte `[171]` does not fail - `readBits` reads the missing
byte as 0 and the decoder returns the wrong value 43776 (the full
payload `[171, 205]` decodes to 43981). -/
theorem truncation_cex :
    (decodeData [171] none 1 16 (JVal.num 0) 0 0).getD 0 JVal.nan =
        JVal.num 43776 ∧
      (decodeData [171, 205] none 1 16 (JVal.num 0) 0 0).getD 0 JVal.nan =
        JVal.num 43981 ∧
      (43776 : ℚ) ≠ 43981 := by
  refine ⟨?_, ?_, by norm_num⟩
  · have h1 : readBits [171] 0 16 = 43776 := by decide
    rw [decodeData_getD [171] none 1 16 (JVal.num 0) 0 0 0 (by decide)
        (by decide),
      if_neg (by decide)]
    unfold cellValue
    rw [show (16 : Nat) * validCount none 0 0 = 0 from rfl, h1]
    simp only [JVal.add, JVal.mul]
    norm_num
  · have h1 : readBits [171, 205] 0 16 = 43981 := by decide
    rw [decodeData_getD [171, 205] none 1 16 (JVal.num 0) 0 0 0 (by decide)
        (by decide),
      if_neg (by decide)]
    unfold cellValue
    rw [show (16 : Nat) * validCount none 0 0 = 0 from rfl, h1]
    simp only [JVal.add, JVal.mul]
    norm_num

/-- Claim C4 (amended): decoding never fails on truncated data - there
is no `TruncatedData` check.  Bytes past the end of the payload read as
0, so the decode of any payload equals the decode of that payload
zero-padded (equivalently: a truncated payload decodes as if the
missing bits were 0, silently), and the decoder always returns a grid
of `numberOfDataPoints` cells. -/
theorem truncation_amended :
    (∀ (l : List Nat) (k o n : Nat),
      readBits (l ++ List.replicate k 0) o n = readBits l o n) ∧
      (∀ (dataBuffer : List Nat) (k : Nat) (bitMap : Option (List Nat))
        (numberOfDataPoints numberOfBits : Nat) (R : JVal) (E D : Int),
        decodeData (dataBuffer ++ List.replicate k 0) bitMap numberOfDataPoints
            numberOfBits R E D =
          decodeData dataBuffer bitMap numberOfDataPoints numberOfBits R E D) ∧
      (∀ (dataBuffer : List Nat) (bitMap : Option (List Nat))
        (numberOfDataPoints numberOfBits : Nat) (R : JVal) (E D : Int),
        (decodeData dataBuffer bitMap numberOfDataPoints numberOfBits
          R E D).length = numberOfDataPoints) :=
  ⟨readBits_append_zeros,
    fun dataBuffer k bitMap ndp nbits R E D =>
      decodeData_append_zeros dataBuffer k bitMap ndp nbits R E D,
    fun dataBuffer bitMap ndp nbits R E D =>
      decodeData_length dataBuffer bitMap ndp nbits R E D⟩

/-- Claim C5, counterexample: at `bitWidth = 0` a cell that a present
bitmap marks missing (bitmap byte 0, so bit 0 of cell 0 is 0) still
receives `referenceValue` 5, not the claimed not-a-number sentinel:
the degenerate early return fills the array before the bitmap is
consulted. -/
theorem bitwidth_zero_cex :
    decodeData [7] (some [0]) 1 0 (JVal.num 5) 0 0 = [JVal.num 5] ∧
      cellMissing (some [0]) 0 = true ∧ JVal.num 5 ≠ JVal.nan := by
  refine ⟨by with_unfolding_all decide, by decide, by decide⟩

/-- Claim C5 (amended): when `bitWidth = 0` the decoder returns
`referenceValue` for every one of the `numberOfDataPoints` cells -
including cells a present bitmap marks missing - and consumes nothing
from the data payload (the result does not depend on `dataBuffer`). -/
theorem bitwidth_zero_fill (dataBuffer : List Nat) (bitMap : Option (List Nat))
    (numberOfDataPoints : Nat) (R : JVal) (E D : Int) :
    decodeData dataBuffer bitMap numberOfDataPoints 0 R E D =
      List.replicate numberOfDataPoints R := by
  unfold decodeData
  rw [if_pos rfl]

/-- Claim C6, counterexample: reading 32 bits whose most significant
bit is set returns a negative number - the accumulator
`(value << 1) | bit` works in signed 32-bit arithmetic, so the packed
field `2^31` comes back as `-2^31`, not as a nonnegative unsigned
integer. -/
theorem readBits_32_cex :
    readBits [128, 0, 0, 0] 0 32 = -2147483648 ∧
      bitsBE [128, 0, 0, 0] 0 32 = 2147483648 ∧
      readBits [128, 0, 0, 0] 0 32 < 0 := by
  refine ⟨by decide, by decide, by decide⟩

/-- Claim C6 (amended): for every `bitWidth ≤ 31` the bit reader
returns the packed field as the correct nonnegative big-endian unsigned
integer; for every width it returns the signed 32-bit reinterpretation
of that field, so at `bitWidth = 32` a set most significant bit wraps
the result to `X - 2^32`. -/
theorem readBits_amended :
    (∀ (b : List Nat) (o n : Nat), n ≤ 31 →
      readBits b o n = ((bitsBE b o n : Nat) : Int) ∧ 0 ≤ readBits b o n) ∧
      (∀ (b : List Nat) (o n : Nat),
        readBits b o n = jsToInt32 ((bitsBE b o n : Nat) : Int)) :=
  ⟨fun b o n h =>
    ⟨readBits_of_le31 b o n h, by
      rw [readBits_of_le31 b o n h]; exact Int.natCast_nonneg _⟩,
    readBits_eq_bitsBE⟩

/-- Claim C6, witness: the three bits 101 at the start of byte 160
read as 5, nonnegative. -/
theorem readBits_amended_witness :
    readBits [160] 0 3 = ((bitsBE [160] 0 3 : Nat) : Int) ∧
      0 ≤ readBits [160] 0 3 :=
  readBits_amended.1 [160] 0 3 (by decide)

/-- Claim C7, counterexample: `gribBufB` declares a section-7 length of
1000 while only 6 bytes remain after the section-7 start (offset 144 of
the 150-byte buffer), yet the parse accepts the message - the declared
length is never compared with the remaining buffer, `Buffer.slice`
simply clamps. -/
theorem section_length_cex :
    exceptOk (parseMRMSGrib2 gribBufB) = true ∧
      readUInt32BE gribBufB 144 = .ok 1000 ∧
      gribBufB.length = 150 ∧ gribBufB.length - 144 < 1000 := by
  refine ⟨by decide, by decide, by decide, by decide⟩

/-- Claim C7 (amended): the parser performs no section-length
validation at all.  There are no `TruncatedInput` or
`InvalidSectionLength` outcomes: the only failure modes are a bad magic
string, an unsupported edition, and the range error a fixed-offset
buffer accessor throws when its bytes extend past the buffer end (for
instance a 4-byte length read with fewer than 4 bytes remaining).  A
declared length of 0 or one exceeding the remaining buffer is not
itself rejected; in particular `gribBufB`, whose section-7 length 1000
exceeds the remaining 6 bytes, is accepted with the payload clamped. -/
theorem section_length_amended :
    (∀ buf : List Nat,
      exceptOk (parseMRMSGrib2 buf) = true ∨
        parseMRMSGrib2 buf = .error .notGrib ∨
        (∃ e, parseMRMSGrib2 buf = .error (.unsupportedEdition e)) ∨
        parseMRMSGrib2 buf = .error .outOfRange) ∧
      (∀ (b : List Nat) (o : Nat), b.length < o + 4 →
        readUInt32BE b o = .error .outOfRange) ∧
      exceptOk (parseMRMSGrib2 gribBufB) = true ∧
      readUInt32BE gribBufB 144 = .ok 1000 :=
  ⟨parse_outcomes, readUInt32BE_short, by decide, by decide⟩

/-- Claim C7, witness: a 4-byte big-endian read one byte from the end
of a 3-byte buffer fails with the accessor's range error. -/
theorem section_length_witness :
    readUInt32BE [1, 2, 3] 1 = .error .outOfRange :=
  section_length_amended.2.1 [1, 2, 3] 1 (by decide)

/-- Claim C8, counterexample: `gribBufA` carries 99 in the
grid-definition template field (bytes 12-13 of section 3, at offset 49)
and 99 in the data-representation template field (bytes 9-10 of
section 5, at offset 126) - neither is the supported value 0 - yet the
parse accepts the message: both reads are commented out in the source,
and no `UnsupportedGridTemplate` or `UnsupportedPackingTemplate`
failure exists. -/
theorem template_cex :
    exceptOk (parseMRMSGrib2 gribBufA) = true ∧
      readUInt16BE gribBufA 49 = .ok 99 ∧
      readUInt16BE gribBufA 126 = .ok 99 := by
  refine ⟨by decide, by decide, by decide⟩

/-- Claim C8 (amended): the parser never inspects the template
identifier fields and has no unsupported-template failure mode: its
only outcomes are success, bad magic, unsupported edition, and an
accessor range error; and a message whose template fields hold 99 is
accepted and decodes to the same grid (dimensions, data-point count and
cell values) as the identical message with the supported value 0 in
those fields. -/
theorem template_amended :
    (∀ buf : List Nat,
      exceptOk (parseMRMSGrib2 buf) = true ∨
        parseMRMSGrib2 buf = .error .notGrib ∨
        (∃ e, parseMRMSGrib2 buf = .error (.unsupportedEdition e)) ∨
        parseMRMSGrib2 buf = .error .outOfRange) ∧
      (parseMRMSGrib2 gribBufA).map
          (fun m => (m.nx, m.ny, m.numberOfDataPoints, m.values)) =
        (parseMRMSGrib2 (mkGribBuf 0 0 7 [171, 205])).map
          (fun m => (m.nx, m.ny, m.numberOfDataPoints, m.values)) ∧
      exceptOk (parseMRMSGrib2 gribBufA) = true :=
  ⟨parse_outcomes, by with_unfolding_all decide, by decide⟩

/-- Claim C9: the `/api/radar/latest` cache behavior.  A request within
the freshness window (`now - time < CACHE_DURATION` with
`CACHE_DURATION = 120000` ms) returns the cached entry unchanged with
no fetch; a request at or after expiry (or with no entry) performs
exactly one fetch and stores the entry `{ data, time := now }`.
Concretely, requests at `t = 0` and `t = 119000` trigger one fetch in
total, and a further request at `t = 121000` triggers exactly one
more. -/
theorem cache_freshness_behavior :
    (∀ (c : CacheEntry) (now : Int) (f : FetchResult),
      now - c.time < CACHE_DURATION →
      radarLatest (some c) now f = (some c, false, Response.json c.data)) ∧
      (∀ (cached : Option CacheEntry) (now : Int) (d : RadarData),
        freshCheck cached now = false →
        radarLatest cached now (.ok d) =
          (some ⟨d, now⟩, true, Response.json d)) ∧
      runRequests [(0, .ok ⟨0⟩), (119000, .ok ⟨1⟩)] none 0 =
        (some ⟨⟨0⟩, 0⟩, 1) ∧
      runRequests [(0, .ok ⟨0⟩), (119000, .ok ⟨1⟩), (121000, .ok ⟨2⟩)] none 0 =
        (some ⟨⟨2⟩, 121000⟩, 2) := by
  refine ⟨?_, ?_, by decide, by decide⟩
  · intro c now f h
    simp only [radarLatest]
    rw [if_pos h]
  · intro cached now d h
    cases cached with
    | none => rfl
    | some c =>
      simp only [radarLatest]
      rw [if_neg (not_lt.mpr (by
        unfold freshCheck at h
        simpa using h))]

/-- Claim C9, witness: at `t = 119000` the entry stored at `t = 0` is
within the 120000 ms window and is served unchanged without a fetch. -/
theorem cache_freshness_witness :
    radarLatest (some ⟨⟨0⟩, 0⟩) 119000 (.ok ⟨1⟩) =
      (some ⟨⟨0⟩, 0⟩, false, Response.json ⟨0⟩) :=
  cache_freshness_behavior.1 ⟨⟨0⟩, 0⟩ 119000 (.ok ⟨1⟩) (by decide)

end RadarApp
